import Mathlib

/-!
Verification of the pulse-kraken adapter.

A shallow embedding of `src/pulse_kraken/adapter.py` (the `KrakenAdapter`
class): the request translator (`to_native` and its builders), the request
signer (`_sign_request`, embedded here as `sign_request` on top of
executable SHA-256 / HMAC-SHA-512 / base64 / form-encoding), the
transport-side request construction and response unwrapping of `call_api`,
and the `connect` / `disconnect` session management.

Bytes are modelled as `Nat` values below 256; 32-bit and 64-bit machine
words are `Nat` reduced modulo 2^32 / 2^64 at every operation, exactly
where Python's fixed-width hash arithmetic wraps.
-/

namespace PulseKraken

/-! Part: Machine-word helpers -/

/-- Reduce to a 32-bit word. -/
def w32 (n : Nat) : Nat := n % 4294967296

/-- Reduce to a 64-bit word. -/
def w64 (n : Nat) : Nat := n % 18446744073709551616

/-- Rotate the 32-bit word `x` right by `r` bit positions. -/
def rotr32 (r x : Nat) : Nat := w32 ((x >>> r) ||| (x <<< (32 - r)))

/-- Rotate the 64-bit word `x` right by `r` bit positions. -/
def rotr64 (r x : Nat) : Nat := w64 ((x >>> r) ||| (x <<< (64 - r)))

/-- Big-endian byte serialisation of `n` into exactly `k` bytes. -/
def beBytes (k n : Nat) : List Nat :=
  (List.range k).map (fun i => (n >>> (8 * (k - 1 - i))) % 256)

/-- Big-endian word from a byte list. -/
def wordOfBytes (bs : List Nat) : Nat := bs.foldl (fun a b => a * 256 + b) 0

/-- Split a list into chunks of `n` elements (fuel-driven; the fuel is the
list length, enough since every step consumes at least one element for
`0 < n`). -/
def chunksGo (fuel n : Nat) (l : List Nat) : List (List Nat) :=
  match fuel with
  | 0 => []
  | fuel + 1 =>
    if l.isEmpty then []
    else l.take n :: chunksGo fuel n (l.drop n)

/-- Split a byte list into chunks of `n` bytes. -/
def chunks (n : Nat) (l : List Nat) : List (List Nat) := chunksGo l.length n l

/-! Part: SHA-256 (FIPS 180-4), on byte lists -/

/-- The 64 SHA-256 round constants. -/
def sha256K : List Nat := [
  1116352408, 1899447441, 3049323471, 3921009573, 961987163, 1508970993,
  2453635748, 2870763221, 3624381080, 310598401, 607225278, 1426881987,
  1925078388, 2162078206, 2614888103, 3248222580, 3835390401, 4022224774,
  264347078, 604807628, 770255983, 1249150122, 1555081692, 1996064986,
  2554220882, 2821834349, 2952996808, 3210313671, 3336571891, 3584528711,
  113926993, 338241895, 666307205, 773529912, 1294757372, 1396182291,
  1695183700, 1986661051, 2177026350, 2456956037, 2730485921, 2820302411,
  3259730800, 3345764771, 3516065817, 3600352804, 4094571909, 275423344,
  430227734, 506948616, 659060556, 883997877, 958139571, 1322822218,
  1537002063, 1747873779, 1955562222, 2024104815, 2227730452, 2361852424,
  2428436474, 2756734187, 3204031479, 3329325298]

/-- The SHA-256 initial hash state. -/
def sha256H0 : List Nat := [
  1779033703, 3144134277, 1013904242, 2773480762,
  1359893119, 2600822924, 528734635, 1541459225]

/-- Extend the 16-word block to the 64-word message schedule. -/
def sha256Extend (steps : Nat) (w : List Nat) : List Nat :=
  match steps with
  | 0 => w
  | steps + 1 =>
    let i := w.length
    let x15 := w.getD (i - 15) 0
    let x2 := w.getD (i - 2) 0
    let s0 := (rotr32 7 x15) ^^^ (rotr32 18 x15) ^^^ (x15 >>> 3)
    let s1 := (rotr32 17 x2) ^^^ (rotr32 19 x2) ^^^ (x2 >>> 10)
    sha256Extend steps (w ++ [w32 (w.getD (i - 16) 0 + s0 + w.getD (i - 7) 0 + s1)])

/-- One SHA-256 compression round; the state is the 8-word list
`[a, b, c, d, e, f, g, h]` and `kw` pairs the round constant with the
scheduled word. -/
def sha256Step (st : List Nat) (kw : Nat × Nat) : List Nat :=
  match st with
  | [a, b, c, d, e, f, g, h] =>
    let s1 := (rotr32 6 e) ^^^ (rotr32 11 e) ^^^ (rotr32 25 e)
    let ch := (e &&& f) ^^^ ((e ^^^ 0xffffffff) &&& g)
    let t1 := w32 (h + s1 + ch + kw.1 + kw.2)
    let s0 := (rotr32 2 a) ^^^ (rotr32 13 a) ^^^ (rotr32 22 a)
    let mj := (a &&& b) ^^^ (a &&& c) ^^^ (b &&& c)
    let t2 := w32 (s0 + mj)
    [w32 (t1 + t2), a, b, c, w32 (d + t1), e, f, g]
  | other => other

/-- Compress one 64-byte block into the running hash state. -/
def sha256Compress (h : List Nat) (block : List Nat) : List Nat :=
  let ws := sha256Extend 48 ((chunks 4 block).map wordOfBytes)
  let st := (sha256K.zip ws).foldl sha256Step h
  List.zipWith (fun a b => w32 (a + b)) h st

/-- Number of zero padding bytes for a SHA-256 message of `len` bytes. -/
def sha256PadZeros (len : Nat) : Nat := (119 - len % 64) % 64

/-- SHA-256 digest (32 raw bytes) of a byte list. -/
def sha256 (msg : List Nat) : List Nat :=
  let padded := msg ++ [0x80] ++ List.replicate (sha256PadZeros msg.length) 0
    ++ beBytes 8 (8 * msg.length)
  (((chunks 64 padded).foldl sha256Compress sha256H0).map (beBytes 4)).flatten

/-! Part: SHA-512 (FIPS 180-4), on byte lists -/

/-- The 80 SHA-512 round constants. -/
def sha512K : List Nat := [
  4794697086780616226, 8158064640168781261, 13096744586834688815,
  16840607885511220156, 4131703408338449720, 6480981068601479193,
  10538285296894168987, 12329834152419229976, 15566598209576043074,
  1334009975649890238, 2608012711638119052, 6128411473006802146,
  8268148722764581231, 9286055187155687089, 11230858885718282805,
  13951009754708518548, 16472876342353939154, 17275323862435702243,
  1135362057144423861, 2597628984639134821, 3308224258029322869,
  5365058923640841347, 6679025012923562964, 8573033837759648693,
  10970295158949994411, 12119686244451234320, 12683024718118986047,
  13788192230050041572, 14330467153632333762, 15395433587784984357,
  489312712824947311, 1452737877330783856, 2861767655752347644,
  3322285676063803686, 5560940570517711597, 5996557281743188959,
  7280758554555802590, 8532644243296465576, 9350256976987008742,
  10552545826968843579, 11727347734174303076, 12113106623233404929,
  14000437183269869457, 14369950271660146224, 15101387698204529176,
  15463397548674623760, 17586052441742319658, 1182934255886127544,
  1847814050463011016, 2177327727835720531, 2830643537854262169,
  3796741975233480872, 4115178125766777443, 5681478168544905931,
  6601373596472566643, 7507060721942968483, 8399075790359081724,
  8693463985226723168, 9568029438360202098, 10144078919501101548,
  10430055236837252648, 11840083180663258601, 13761210420658862357,
  14299343276471374635, 14566680578165727644, 15097957966210449927,
  16922976911328602910, 17689382322260857208, 500013540394364858,
  748580250866718886, 1242879168328830382, 1977374033974150939,
  2944078676154940804, 3659926193048069267, 4368137639120453308,
  4836135668995329356, 5532061633213252278, 6448918945643986474,
  6902733635092675308, 7801388544844847127]

/-- The SHA-512 initial hash state. -/
def sha512H0 : List Nat := [
  7640891576956012808, 13503953896175478587,
  4354685564936845355, 11912009170470909681,
  5840696475078001361, 11170449401992604703,
  2270897969802886507, 6620516959819538809]

/-- Extend the 16-word block to the 80-word message schedule. -/
def sha512Extend (steps : Nat) (w : List Nat) : List Nat :=
  match steps with
  | 0 => w
  | steps + 1 =>
    let i := w.length
    let x15 := w.getD (i - 15) 0
    let x2 := w.getD (i - 2) 0
    let s0 := (rotr64 1 x15) ^^^ (rotr64 8 x15) ^^^ (x15 >>> 7)
    let s1 := (rotr64 19 x2) ^^^ (rotr64 61 x2) ^^^ (x2 >>> 6)
    sha512Extend steps (w ++ [w64 (w.getD (i - 16) 0 + s0 + w.getD (i - 7) 0 + s1)])

/-- One SHA-512 compression round. -/
def sha512Step (st : List Nat) (kw : Nat × Nat) : List Nat :=
  match st with
  | [a, b, c, d, e, f, g, h] =>
    let s1 := (rotr64 14 e) ^^^ (rotr64 18 e) ^^^ (rotr64 41 e)
    let ch := (e &&& f) ^^^ ((e ^^^ 0xffffffffffffffff) &&& g)
    let t1 := w64 (h + s1 + ch + kw.1 + kw.2)
    let s0 := (rotr64 28 a) ^^^ (rotr64 34 a) ^^^ (rotr64 39 a)
    let mj := (a &&& b) ^^^ (a &&& c) ^^^ (b &&& c)
    let t2 := w64 (s0 + mj)
    [w64 (t1 + t2), a, b, c, w64 (d + t1), e, f, g]
  | other => other

/-- Compress one 128-byte block into the running hash state. -/
def sha512Compress (h : List Nat) (block : List Nat) : List Nat :=
  let ws := sha512Extend 64 ((chunks 8 block).map wordOfBytes)
  let st := (sha512K.zip ws).foldl sha512Step h
  List.zipWith (fun a b => w64 (a + b)) h st

/-- Number of zero padding bytes for a SHA-512 message of `len` bytes. -/
def sha512PadZeros (len : Nat) : Nat := (239 - len % 128) % 128

/-- SHA-512 digest (64 raw bytes) of a byte list. -/
def sha512 (msg : List Nat) : List Nat :=
  let padded := msg ++ [0x80] ++ List.replicate (sha512PadZeros msg.length) 0
    ++ beBytes 16 (8 * msg.length)
  (((chunks 128 padded).foldl sha512Compress sha512H0).map (beBytes 8)).flatten

/-! Part: HMAC-SHA-512 (RFC 2104), block size 128 bytes -/

/-- HMAC-SHA-512 of `msg` under `key`, as 64 raw bytes. -/
def hmacSha512 (key msg : List Nat) : List Nat :=
  let k0 := if key.length > 128 then sha512 key else key
  let k1 := k0 ++ List.replicate (128 - k0.length) 0
  let ipad := k1.map (fun b => b ^^^ 0x36)
  let opad := k1.map (fun b => b ^^^ 0x5c)
  sha512 (opad ++ sha512 (ipad ++ msg))

/-! Part: Base64 (RFC 4648) and UTF-8 -/

/-- The standard base64 alphabet. -/
def b64Alphabet : List Char :=
  "ABCDEFGHIJKLMNOPQRSTUVWXYZabcdefghijklmnopqrstuvwxyz0123456789+/".toList

/-- The base64 character for a 6-bit value. -/
def b64Char (n : Nat) : Char := b64Alphabet.getD n 'A'

/-- The 6-bit value of a base64 character, if any. -/
def b64Val (c : Char) : Option Nat := b64Alphabet.indexOf? c

/-- Base64-encode a byte list (with `=` padding). -/
def b64encodeChars (bs : List Nat) : List Char :=
  match bs with
  | [] => []
  | [a] =>
    [b64Char (a >>> 2), b64Char ((a &&& 0x3) <<< 4), '=', '=']
  | [a, b] =>
    [b64Char (a >>> 2), b64Char (((a &&& 0x3) <<< 4) ||| (b >>> 4)),
     b64Char ((b &&& 0xf) <<< 2), '=']
  | a :: b :: c :: rest =>
    b64Char (a >>> 2) :: b64Char (((a &&& 0x3) <<< 4) ||| (b >>> 4)) ::
    b64Char (((b &&& 0xf) <<< 2) ||| (c >>> 6)) :: b64Char (c &&& 0x3f) ::
    b64encodeChars rest

/-- Base64-encode a byte list into a string. -/
def b64encode (bs : List Nat) : String := String.mk (b64encodeChars bs)

/-- Base64-decode a character list: groups of four characters, `=` padding
only at the end.  Fails (like Python's `base64.b64decode` on its valid
inputs' complement) when a character is outside the alphabet or the length
is not a multiple of four. -/
def b64decodeChars (cs : List Char) : Option (List Nat) :=
  match cs with
  | [] => some []
  | [a, b, '=', '='] => do
    let va ← b64Val a
    let vb ← b64Val b
    pure [(va <<< 2) ||| (vb >>> 4)]
  | [a, b, c, '='] => do
    let va ← b64Val a
    let vb ← b64Val b
    let vc ← b64Val c
    pure [(va <<< 2) ||| (vb >>> 4), ((vb &&& 0xf) <<< 4) ||| (vc >>> 2)]
  | a :: b :: c :: d :: rest => do
    let va ← b64Val a
    let vb ← b64Val b
    let vc ← b64Val c
    let vd ← b64Val d
    let tail ← b64decodeChars rest
    pure (((va <<< 2) ||| (vb >>> 4)) :: (((vb &&& 0xf) <<< 4) ||| (vc >>> 2)) ::
      (((vc &&& 0x3) <<< 6) ||| vd) :: tail)
  | _ => none

/-- Base64-decode a string into raw bytes, if well-formed. -/
def b64decode (s : String) : Option (List Nat) := b64decodeChars s.toList

/-- UTF-8 encoding of one character (code point to 1–4 bytes). -/
def utf8Char (c : Char) : List Nat :=
  let n := c.toNat
  if n < 0x80 then [n]
  else if n < 0x800 then
    [0xc0 ||| (n >>> 6), 0x80 ||| (n &&& 0x3f)]
  else if n < 0x10000 then
    [0xe0 ||| (n >>> 12), 0x80 ||| ((n >>> 6) &&& 0x3f), 0x80 ||| (n &&& 0x3f)]
  else
    [0xf0 ||| (n >>> 18), 0x80 ||| ((n >>> 12) &&& 0x3f),
     0x80 ||| ((n >>> 6) &&& 0x3f), 0x80 ||| (n &&& 0x3f)]

/-- UTF-8 encoding of a string as a byte list. -/
def utf8Bytes (s : String) : List Nat := (s.toList.map utf8Char).flatten

/-! Part: Python value and dict model.

Parameter mappings are insertion-ordered association lists with string
keys.  Values are the fragment of Python values the adapter handles:
strings and integers (floats are outside the model; every claim-relevant
conversion is exercised on strings and integers). -/

/-- A Python parameter value: a string or an integer. -/
inductive PVal where
  | str (s : String)
  | int (n : Int)
deriving DecidableEq

/-- A Python dict with string keys, in insertion order. -/
abbrev PDict := List (String × PVal)

/-- First-match association-list lookup (`d[k]` / `d.get(k)`). -/
def lookupKey (ps : List (String × α)) (k : String) : Option α :=
  match ps with
  | [] => none
  | (k2, v) :: rest => if k2 = k then some v else lookupKey rest k

/-- `k in d` membership test. -/
def hasKey (ps : List (String × α)) (k : String) : Bool :=
  (lookupKey ps k).isSome

/-- `d.get(k, dflt)`. -/
def pyGetD (ps : List (String × α)) (k : String) (dflt : α) : α :=
  (lookupKey ps k).getD dflt

/-- Dict assignment `d[k] = v`: overwrite the existing entry in place, or
append a fresh key at the end (Python dicts keep insertion order). -/
def setKey (ps : List (String × α)) (k : String) (v : α) : List (String × α) :=
  match ps with
  | [] => [(k, v)]
  | (k2, v2) :: rest =>
    if k2 = k then (k2, v) :: rest else (k2, v2) :: setKey rest k v

/-- Python `str()` of a value. -/
def pyStr : PVal → String
  | .str s => s
  | .int n => toString n

/-- ASCII fragment of Python `str.upper` (the adapter only uppercases
market symbols, which are ASCII). -/
def upperAscii (s : String) : String := String.mk (s.toList.map Char.toUpper)

/-- ASCII fragment of Python `str.lower`. -/
def lowerAscii (s : String) : String := String.mk (s.toList.map Char.toLower)

/-- `v.upper()`: defined on strings; on an integer Python raises an
uncaught `AttributeError`. -/
def pyUpper : PVal → Except String PVal
  | .str s => .ok (.str (upperAscii s))
  | .int n => .error ("AttributeError: upper called on int " ++ toString n)

/-- `v.lower()`: defined on strings; on an integer Python raises an
uncaught `AttributeError`. -/
def pyLower : PVal → Except String PVal
  | .str s => .ok (.str (lowerAscii s))
  | .int n => .error ("AttributeError: lower called on int " ++ toString n)

/-- Python truthiness of an optional value (`None`, `""` and `0` are
falsy). -/
def truthyV : Option PVal → Bool
  | none => false
  | some (.str s) => s != ""
  | some (.int n) => n != 0

/-- Python truthiness of an optional string (`None` and `""` are falsy). -/
def truthyS : Option String → Bool
  | none => false
  | some s => s != ""

/-- Python `repr` of a list of strings, as interpolated by an f-string
(single-quoted items, comma-space separated, square brackets). -/
def pyListRepr (xs : List String) : String :=
  "[" ++ String.intercalate ", " (xs.map (fun s => "\x27" ++ s ++ "\x27")) ++ "]"

/-! Part: Form encoding (`urllib.parse.urlencode` with `quote_plus`) -/

/-- Uppercase hexadecimal digit. -/
def hexUpper (n : Nat) : Char := "0123456789ABCDEF".toList.getD n '0'

/-- `quote_plus` on one UTF-8 byte: space becomes `+`; ASCII
alphanumerics and `_.-~` stand for themselves; every other byte is
percent-encoded with uppercase hex. -/
def quotePlusByte (b : Nat) : List Char :=
  if b = 0x20 then ['+']
  else if (0x30 ≤ b ∧ b ≤ 0x39) ∨ (0x41 ≤ b ∧ b ≤ 0x5a) ∨ (0x61 ≤ b ∧ b ≤ 0x7a)
      ∨ b = 0x5f ∨ b = 0x2e ∨ b = 0x2d ∨ b = 0x7e then [Char.ofNat b]
  else ['%', hexUpper (b / 16), hexUpper (b % 16)]

/-- `urllib.parse.quote_plus` of a string. -/
def quotePlus (s : String) : String :=
  String.mk (((utf8Bytes s).map quotePlusByte).flatten)

/-- `urllib.parse.urlencode`: `key=value` pairs in insertion order joined
by `&`, keys and stringified values quote-plus encoded. -/
def urlencode (d : PDict) : String :=
  String.intercalate "&"
    (d.map (fun kv => quotePlus kv.1 ++ "=" ++ quotePlus (pyStr kv.2)))

/-! Part: Errors and request descriptors -/

/-- The exceptions the adapter can surface: `AdapterError`,
`AdapterConnectionError`, and `pyError` for any exception that escapes
uncaught through the modelled code path (`AttributeError`,
`binascii.Error`, an uncaught `requests` exception, ...). -/
inductive AdapterErr where
  | adapterError (msg : String)
  | connectionError (msg : String)
  | pyError (msg : String)
deriving DecidableEq

/-- The native request descriptor dict produced by `to_native`
(`method` / `endpoint` / `params` / `signed`). -/
structure NativeReq where
  method : String
  endpoint : String
  params : PDict
  signed : Bool
deriving DecidableEq

/-- The module-level `ENDPOINTS` table. -/
def ENDPOINTS : List (String × String) := [
  ("ticker", "/0/public/Ticker"),
  ("ohlc", "/0/public/OHLC"),
  ("depth", "/0/public/Depth"),
  ("server_time", "/0/public/Time"),
  ("balance", "/0/private/Balance"),
  ("add_order", "/0/private/AddOrder"),
  ("cancel_order", "/0/private/CancelOrder"),
  ("open_orders", "/0/private/OpenOrders"),
  ("query_orders", "/0/private/QueryOrders")]

/-- `ENDPOINTS[k]` (every use site passes a present key). -/
def endpointFor (k : String) : String := (lookupKey ENDPOINTS k).getD ""

/-- The module-level `ACTION_MAP` table. -/
def ACTION_MAP : List (String × String) := [
  ("ACT.QUERY.DATA", "query"),
  ("ACT.QUERY.STATUS", "order_status"),
  ("ACT.TRANSACT.REQUEST", "place_order"),
  ("ACT.CANCEL", "cancel_order"),
  ("ACT.QUERY.LIST", "open_orders"),
  ("ACT.QUERY.BALANCE", "balance")]

/-! Part: Request builders (`KrakenAdapter._build_*`) -/

/-- `_build_query_request`: market-data query.  `type` defaults to
`"price"`; symbol handling follows Python truthiness (`None` and `""`
behave alike). -/
def build_query_request (params : PDict) : Except AdapterErr NativeReq :=
  let symbol := lookupKey params "symbol"
  let query_type := pyGetD params "type" (.str "price")
  if query_type = PVal.str "price" ∨ query_type = PVal.str "24h" then
    match symbol, truthyV symbol with
    | some v, true =>
      match pyUpper v with
      | .error m => .error (.pyError m)
      | .ok u => .ok ⟨"GET", endpointFor "ticker", [("pair", u)], false⟩
    | _, _ => .ok ⟨"GET", endpointFor "ticker", [], false⟩
  else if query_type = PVal.str "klines" then
    match symbol, truthyV symbol with
    | some v, true =>
      match pyUpper v with
      | .error m => .error (.pyError m)
      | .ok u => .ok ⟨"GET", endpointFor "ohlc",
          [("pair", u), ("interval", pyGetD params "interval" (.int 60))], false⟩
    | _, _ => .error (.adapterError "Symbol required for klines query.")
  else if query_type = PVal.str "depth" then
    match symbol, truthyV symbol with
    | some v, true =>
      match pyUpper v with
      | .error m => .error (.pyError m)
      | .ok u => .ok ⟨"GET", endpointFor "depth",
          [("pair", u), ("count", pyGetD params "limit" (.int 20))], false⟩
    | _, _ => .error (.adapterError "Symbol required for depth query.")
  else
    .error (.adapterError
      ("Unknown query type \x27" ++ pyStr query_type ++ "\x27. Use: price, 24h, klines, depth."))

/-- First entry of `fields` missing from `params` (the `for field in
required` loop of `_build_order_request`). -/
def firstMissing (params : PDict) (fields : List String) : Option String :=
  fields.find? (fun f => !hasKey params f)

/-- `_build_order_request`: order placement. -/
def build_order_request (params : PDict) : Except AdapterErr NativeReq :=
  match firstMissing params ["symbol", "side", "quantity"] with
  | some f =>
    .error (.adapterError ("Missing required field \x27" ++ f ++ "\x27 for order placement."))
  | none =>
    match pyUpper (pyGetD params "symbol" (.str "")) with
    | .error m => .error (.pyError m)
    | .ok pair =>
      match pyLower (pyGetD params "side" (.str "")) with
      | .error m => .error (.pyError m)
      | .ok ty =>
        match pyLower (pyGetD params "order_type" (.str "market")) with
        | .error m => .error (.pyError m)
        | .ok ordertype =>
          let order_params : PDict := [("pair", pair), ("type", ty),
            ("ordertype", ordertype),
            ("volume", .str (pyStr (pyGetD params "quantity" (.str ""))))]
          if ordertype = PVal.str "limit" then
            match lookupKey params "price" with
            | none => .error (.adapterError "Price required for LIMIT orders.")
            | some pr =>
              .ok ⟨"POST", endpointFor "add_order",
                order_params ++ [("price", .str (pyStr pr))], true⟩
          else
            .ok ⟨"POST", endpointFor "add_order", order_params, true⟩

/-- `_build_cancel_request`: order cancellation. -/
def build_cancel_request (params : PDict) : Except AdapterErr NativeReq :=
  if !hasKey params "order_id" then
    .error (.adapterError "Order ID required for cancellation.")
  else
    .ok ⟨"POST", endpointFor "cancel_order",
      [("txid", .str (pyStr (pyGetD params "order_id" (.str ""))))], true⟩

/-- `_build_status_request`: order status query. -/
def build_status_request (params : PDict) : Except AdapterErr NativeReq :=
  if !hasKey params "order_id" then
    .error (.adapterError "Order ID required for status query.")
  else
    .ok ⟨"POST", endpointFor "query_orders",
      [("txid", .str (pyStr (pyGetD params "order_id" (.str ""))))], true⟩

/-- `_build_open_orders_request`: open orders query. -/
def build_open_orders_request (_params : PDict) : Except AdapterErr NativeReq :=
  .ok ⟨"POST", endpointFor "open_orders", [], true⟩

/-- `_build_balance_request`: balance query. -/
def build_balance_request : Except AdapterErr NativeReq :=
  .ok ⟨"POST", endpointFor "balance", [], true⟩

/-- The message of the unsupported-action error raised by `to_native`. -/
def unsupported_msg (action : String) : String :=
  "Unsupported action \x27" ++ action ++ "\x27. Supported: "
    ++ pyListRepr (ACTION_MAP.map Prod.fst)

/-- `KrakenAdapter.to_native`: dispatch on `ACTION_MAP` (every mapped
operation string is non-empty, so `if not operation` is exactly the
`None` case). -/
def to_native (action : String) (params : PDict) : Except AdapterErr NativeReq :=
  match lookupKey ACTION_MAP action with
  | none => .error (.adapterError (unsupported_msg action))
  | some operation =>
    if operation = "query" then build_query_request params
    else if operation = "place_order" then build_order_request params
    else if operation = "cancel_order" then build_cancel_request params
    else if operation = "order_status" then build_status_request params
    else if operation = "open_orders" then build_open_orders_request params
    else if operation = "balance" then build_balance_request
    else .error (.adapterError ("Unknown operation: " ++ operation))

/-! Part: Signer (`KrakenAdapter._sign_request`) -/

/-- `_sign_request`: the Kraken signature scheme as written in the source:
form-encode the data, SHA-256 the nonce plus encoded body, prepend the
UTF-8 path bytes, HMAC-SHA-512 under the base64-decoded secret, base64
the result; returns the `API-Key` / `API-Sign` header pair.  A secret
that is not valid base64 raises an uncaught `binascii.Error`. -/
def sign_request (api_key api_secret urlpath nonce : String) (data : PDict) :
    Except AdapterErr (List (String × String)) :=
  let encoded_data := urlencode data
  let sha256_hash := sha256 (utf8Bytes (nonce ++ encoded_data))
  let message := utf8Bytes urlpath ++ sha256_hash
  match b64decode api_secret with
  | none => .error (.pyError "binascii.Error: invalid base64 secret")
  | some key =>
    .ok [("API-Key", api_key), ("API-Sign", b64encode (hmacSha512 key message))]

/-! Part: transport-side request construction (`KrakenAdapter.call_api`,
lines 148–172: everything up to and including issuing the HTTP call) -/

/-- The base URL. -/
def BASE_URL : String := "https://api.kraken.com"

/-- The HTTP call the adapter hands to the session: method, full URL,
query-string parameters (GET), form body (POST) and extra headers. -/
structure HttpCall where
  method : String
  url : String
  query : PDict
  body : PDict
  headers : List (String × String)
deriving DecidableEq

/-- The request-construction phase of `call_api`: given the configured
credentials, the clock reading in milliseconds and the native descriptor,
produce the HTTP call to send together with the descriptor as it stands
after the call (Python mutates `native_request["params"]` in place when
inserting the nonce, so the caller's descriptor is updated too). -/
def call_build (api_key api_secret : Option String) (now_ms : Nat)
    (req : NativeReq) : Except AdapterErr (HttpCall × NativeReq) :=
  let url := BASE_URL ++ req.endpoint
  if req.method = "GET" then
    .ok (⟨"GET", url, req.params, [], []⟩, req)
  else if req.method = "POST" then
    if req.signed then
      if !(truthyS api_key && truthyS api_secret) then
        .error (.adapterError "API key and secret required for signed requests.")
      else
        let nonce := toString now_ms
        let params2 := setKey req.params "nonce" (.str nonce)
        match sign_request (api_key.getD "") (api_secret.getD "")
            req.endpoint nonce params2 with
        | .error e => .error e
        | .ok headers =>
          .ok (⟨"POST", url, [], params2, headers⟩, { req with params := params2 })
    else
      .ok (⟨"POST", url, [], req.params, []⟩, req)
  else
    .error (.adapterError ("Unknown HTTP method: " ++ req.method))

/-! Part: Response unwrapping (`call_api`, lines 174–181) -/

/-- A JSON value, for response payloads. -/
inductive JVal where
  | null
  | bool (b : Bool)
  | str (s : String)
  | num (n : Int)
  | arr (xs : List JVal)
  | obj (fields : List (String × JVal))

/-- A parsed Kraken response envelope: the `error` field (a list of error
strings when present), the `result` field when present (possibly
`null`), and any remaining fields. -/
structure Envelope where
  error : Option (List String)
  result : Option JVal
  extra : List (String × JVal)

/-- The envelope as the JSON object the adapter received. -/
def Envelope.toJVal (e : Envelope) : JVal :=
  .obj ((match e.error with
      | some es => [("error", .arr (es.map .str))]
      | none => []) ++
    (match e.result with
      | some r => [("result", r)]
      | none => []) ++ e.extra)

/-- Response handling of `call_api`: `errors = data.get("error", [])`; a
truthy (non-empty) error list raises `AdapterError` joining the strings
with `"; "`; otherwise `data.get("result", data)` is returned. -/
def handleResponse (data : Envelope) : Except AdapterErr JVal :=
  let errors := data.error.getD []
  if !errors.isEmpty then
    .error (.adapterError ("Kraken error: " ++ String.intercalate "; " errors))
  else
    .ok (data.result.getD data.toJVal)

/-! Part: Session management (`connect` / `disconnect`) -/

/-- Observable session state of the adapter: whether `_session` is set
and the `connected` flag. -/
structure SessState where
  hasSession : Bool
  connected : Bool
deriving DecidableEq

/-- Outcome of the `GET /0/public/Time` connectivity probe, classified by
the `requests` exception that reaches the adapter.  In `requests`,
connection-refused and DNS failures raise `requests.ConnectionError`; a
timeout while establishing the connection raises
`requests.ConnectTimeout`, a subclass of both `requests.ConnectionError`
and `requests.Timeout`; a timeout while reading the response raises
`requests.ReadTimeout`, a subclass of `requests.Timeout` only; an HTTP
error status surfaces via `raise_for_status` as `requests.HTTPError`. -/
inductive NetOutcome where
  | connRefused (msg : String)
  | dnsFailure (msg : String)
  | connectTimeout (msg : String)
  | readTimeout (msg : String)
  | httpStatusError (msg : String)
  | success (resp : Envelope)

/-- `KrakenAdapter.connect`: probe the time endpoint; `except
requests.ConnectionError` and `except requests.HTTPError` map to
`AdapterConnectionError`; a `requests.ReadTimeout` matches neither
`except` clause and escapes uncaught.  On an exception the freshly
assigned `_session` survives but `connected` is not touched; the error
branches carry only the raised error. -/
def connect (_st : SessState) (o : NetOutcome) : Except AdapterErr SessState :=
  match o with
  | .connRefused m => .error (.connectionError ("Cannot reach Kraken API: " ++ m))
  | .dnsFailure m => .error (.connectionError ("Cannot reach Kraken API: " ++ m))
  | .connectTimeout m => .error (.connectionError ("Cannot reach Kraken API: " ++ m))
  | .readTimeout m => .error (.pyError ("requests.exceptions.ReadTimeout: " ++ m))
  | .httpStatusError m => .error (.connectionError ("Kraken API error: " ++ m))
  | .success resp =>
    match resp.error with
    | some (e :: es) =>
      .error (.connectionError ("Kraken API error: " ++ pyListRepr (e :: es)))
    | _ => .ok { hasSession := true, connected := true }

/-- `KrakenAdapter.disconnect`: close the session if one exists, clear it,
drop the connected flag.  The body cannot raise. -/
def disconnect (_st : SessState) : SessState :=
  { hasSession := false, connected := false }

/-! Part: spec-side definitions (for the refinement claims).

These two definitions are written from the words of the specification,
not from the source, and are compared against the source embeddings in
the theorems below. -/

/-- The fixed endpoint/method table of the specification (§2, §4.1): the
market-data query is a GET against one of the three public endpoints;
the five other actions are POSTs against their private endpoints. -/
def spec_route (action : String) : Option (String × List String) :=
  lookupKey [
    ("ACT.QUERY.DATA", ("GET", ["/0/public/Ticker", "/0/public/OHLC", "/0/public/Depth"])),
    ("ACT.QUERY.STATUS", ("POST", ["/0/private/QueryOrders"])),
    ("ACT.TRANSACT.REQUEST", ("POST", ["/0/private/AddOrder"])),
    ("ACT.CANCEL", ("POST", ["/0/private/CancelOrder"])),
    ("ACT.QUERY.LIST", ("POST", ["/0/private/OpenOrders"])),
    ("ACT.QUERY.BALANCE", ("POST", ["/0/private/Balance"]))] action

/-- The signing algorithm as the specification words it (§4.3, steps
1–6): form-encode the parameters in insertion order into
`encoded_body`; `digest1 = SHA-256(nonce_string + encoded_body)` as raw
bytes; `message = path_bytes (UTF-8) + digest1`; decode the secret from
base64; `signature = HMAC-SHA512(key = decoded_secret, message)` raw;
base64-encode it; output the raw API key string and the base64
signature string as the header pair. -/
def spec_sign_headers (api_key secret path nonce : String) (params : PDict) :
    Option (List (String × String)) :=
  let encoded_body := urlencode params
  let digest1 := sha256 (utf8Bytes (nonce ++ encoded_body))
  let message := utf8Bytes path ++ digest1
  match b64decode secret with
  | none => none
  | some decoded_secret =>
    let signature := hmacSha512 decoded_secret message
    some [("API-Key", api_key), ("API-Sign", b64encode signature)]

/-! Part: Helper lemmas -/

theorem setKey_of_lookup_none (ps : List (String × α)) (k : String) (v : α)
    (h : lookupKey ps k = none) : setKey ps k v = ps ++ [(k, v)] := by
  induction ps with
  | nil => rfl
  | cons hd tl ih =>
    obtain ⟨k2, v2⟩ := hd
    by_cases hk : k2 = k
    · simp [lookupKey, hk] at h
    · simp only [lookupKey, hk, if_false] at h
      simp [setKey, hk, ih h]

theorem lookupKey_setKey (ps : List (String × α)) (k : String) (v : α) :
    lookupKey (setKey ps k v) k = some v := by
  induction ps with
  | nil => simp [setKey, lookupKey]
  | cons hd tl ih =>
    obtain ⟨k2, v2⟩ := hd
    by_cases hk : k2 = k
    · simp [setKey, lookupKey, hk]
    · simp [setKey, lookupKey, hk, ih]

theorem length_setKey_of_lookup_none (ps : List (String × α)) (k : String)
    (v : α) (h : lookupKey ps k = none) :
    (setKey ps k v).length = ps.length + 1 := by
  rw [setKey_of_lookup_none ps k v h]; simp

/-! Part: Theorems for the claims -/

/-- C1: For every URL path, nonce string, parameter mapping and
base64-encoded secret, `_sign_request` produces the header pair by
form-encoding the parameters in insertion order, taking the raw SHA-256
digest of `nonce_string + encoded_body`, prepending the UTF-8 path bytes,
HMAC-SHA-512 under the base64-decoded secret and base64-encoding the
result — i.e. it agrees with the specification's step-by-step signer
`spec_sign_headers`, and the output is the pair of the raw API key string
and the base64 signature string. -/
theorem signer_matches_spec (api_key api_secret urlpath nonce : String)
    (data : PDict) (sk : List Nat) (h : b64decode api_secret = some sk) :
    sign_request api_key api_secret urlpath nonce data =
      .ok [("API-Key", api_key),
        ("API-Sign", b64encode (hmacSha512 sk
          (utf8Bytes urlpath ++ sha256 (utf8Bytes (nonce ++ urlencode data)))))] ∧
    spec_sign_headers api_key api_secret urlpath nonce data =
      some [("API-Key", api_key),
        ("API-Sign", b64encode (hmacSha512 sk
          (utf8Bytes urlpath ++ sha256 (utf8Bytes (nonce ++ urlencode data)))))] := by
  constructor <;> simp [sign_request, spec_sign_headers, h]

/-- Witness for C1 at a concrete secret, path, nonce and body. -/
theorem signer_matches_spec_witness :
    b64decode "dGVzdC1zZWNyZXQ=" =
      some [116, 101, 115, 116, 45, 115, 101, 99, 114, 101, 116] ∧
    sign_request "test-key" "dGVzdC1zZWNyZXQ=" "/0/private/Balance"
        "1700000000000" [("nonce", .str "1700000000000")] =
      .ok [("API-Key", "test-key"),
        ("API-Sign", b64encode (hmacSha512
          [116, 101, 115, 116, 45, 115, 101, 99, 114, 101, 116]
          (utf8Bytes "/0/private/Balance" ++ sha256 (utf8Bytes ("1700000000000" ++
            urlencode [("nonce", .str "1700000000000")])))))] :=
  ⟨rfl, (signer_matches_spec "test-key" "dGVzdC1zZWNyZXQ=" "/0/private/Balance"
    "1700000000000" [("nonce", .str "1700000000000")] _ rfl).1⟩

/-- C2: A response envelope whose error list is non-empty always fails
with the exchange's error strings joined by `"; "`, and the result payload
is never returned, even when one is present. -/
theorem nonempty_errors_raise (env : Envelope) (es : List String)
    (h : env.error = some es) (hne : es ≠ []) :
    handleResponse env =
      .error (.adapterError ("Kraken error: " ++ String.intercalate "; " es)) ∧
    ∀ r, handleResponse env ≠ .ok r := by
  have hE : handleResponse env =
      .error (.adapterError ("Kraken error: " ++ String.intercalate "; " es)) := by
    cases es with
    | nil => exact absurd rfl hne
    | cons e es' => simp [handleResponse, h]
  exact ⟨hE, fun r hr => by rw [hE] at hr; exact Except.noConfusion hr⟩

/-- Witness for C2: an envelope carrying both errors and a result payload. -/
theorem nonempty_errors_raise_witness :
    handleResponse ⟨some ["EGeneral:Invalid arguments", "EOrder:Insufficient funds"],
        some (.str "payload"), []⟩ =
      .error (.adapterError ("Kraken error: " ++ String.intercalate "; "
        ["EGeneral:Invalid arguments", "EOrder:Insufficient funds"])) ∧
    ∀ r, handleResponse ⟨some ["EGeneral:Invalid arguments", "EOrder:Insufficient funds"],
        some (.str "payload"), []⟩ ≠ .ok r :=
  nonempty_errors_raise _ _ rfl (by simp)

/-- C3: A response envelope with an empty (or absent) error list
returns exactly the result payload when a `result` field is present, and
the whole envelope when it is absent. -/
theorem empty_errors_return_result (env : Envelope)
    (h : env.error = none ∨ env.error = some []) :
    (∀ r, env.result = some r → handleResponse env = .ok r) ∧
    (env.result = none → handleResponse env = .ok env.toJVal) := by
  have hz : env.error.getD [] = [] := by rcases h with h | h <;> simp [h]
  constructor
  · intro r hr; simp [handleResponse, hz, hr]
  · intro hr; simp [handleResponse, hz, hr]

/-- Witness for C3: a present `result` field is returned unmodified. -/
theorem empty_errors_return_result_witness :
    handleResponse ⟨some [], some (.str "payload"), []⟩ = .ok (.str "payload") :=
  (empty_errors_return_result ⟨some [], some (.str "payload"), []⟩ (Or.inr rfl)).1
    _ rfl

/-- C9: Tearing the session down is idempotent and safe without a
session: for every adapter state, a second `disconnect` is a no-op, a
`disconnect` with no session present succeeds (the modelled body is total
— no branch of it raises), and afterwards the session is absent and the
connected flag false. -/
theorem disconnect_idempotent_safe (st : SessState) :
    disconnect (disconnect st) = disconnect st ∧
    disconnect { hasSession := false, connected := st.connected } =
      { hasSession := false, connected := false } ∧
    (disconnect st).hasSession = false ∧ (disconnect st).connected = false :=
  ⟨rfl, rfl, rfl, rfl⟩

/-- Whether a `connect` outcome is the `ConnectionFailure` kind
(an `AdapterConnectionError`). -/
def isConnectionFailure : Except AdapterErr SessState → Bool
  | .error (.connectionError _) => true
  | _ => false

/-- C8, counterexample: The claim says any network-level timeout
yields a `ConnectionFailure`; but `connect` only catches
`requests.ConnectionError` and `requests.HTTPError`, so a read timeout
(`requests.ReadTimeout`, a `Timeout` that is not a `ConnectionError`)
escapes uncaught instead of becoming a `ConnectionFailure`. -/
theorem connect_readTimeout_escapes :
    connect ⟨false, false⟩ (.readTimeout "timed out") =
      .error (.pyError "requests.exceptions.ReadTimeout: timed out") ∧
    isConnectionFailure (connect ⟨false, false⟩ (.readTimeout "timed out")) = false :=
  ⟨rfl, rfl⟩

/-- C8, amended: The session-start connectivity check calls the time
endpoint; connection refusal, DNS failure, a connect-phase timeout, an
HTTP error status and a non-empty error list all yield a
`ConnectionFailure` (`AdapterConnectionError`), and otherwise the session
is marked live — but a timeout while reading the response escapes as an
uncaught `requests.ReadTimeout` rather than a `ConnectionFailure`. -/
theorem connect_classification (st : SessState) (m : String) (env : Envelope) :
    connect st (.connRefused m) =
      .error (.connectionError ("Cannot reach Kraken API: " ++ m)) ∧
    connect st (.dnsFailure m) =
      .error (.connectionError ("Cannot reach Kraken API: " ++ m)) ∧
    connect st (.connectTimeout m) =
      .error (.connectionError ("Cannot reach Kraken API: " ++ m)) ∧
    connect st (.httpStatusError m) =
      .error (.connectionError ("Kraken API error: " ++ m)) ∧
    (∀ es, env.error = some es → es ≠ [] →
      connect st (.success env) =
        .error (.connectionError ("Kraken API error: " ++ pyListRepr es))) ∧
    ((env.error = none ∨ env.error = some []) →
      connect st (.success env) = .ok { hasSession := true, connected := true }) ∧
    connect st (.readTimeout m) =
      .error (.pyError ("requests.exceptions.ReadTimeout: " ++ m)) := by
  refine ⟨rfl, rfl, rfl, rfl, ?_, ?_, rfl⟩
  · intro es h hne
    cases es with
    | nil => exact absurd rfl hne
    | cons e es' => simp [connect, h]
  · intro h
    rcases h with h | h <;> simp [connect, h]

/-- Witness for C8 (amended): a non-empty error list at the time endpoint
yields a `ConnectionFailure`, at a concrete envelope. -/
theorem connect_classification_witness :
    connect ⟨false, false⟩ (.success ⟨some ["EService:Unavailable"], none, []⟩) =
      .error (.connectionError ("Kraken API error: " ++
        pyListRepr ["EService:Unavailable"])) :=
  (connect_classification ⟨false, false⟩ "x"
    ⟨some ["EService:Unavailable"], none, []⟩).2.2.2.2.1
    ["EService:Unavailable"] rfl (by simp)

/-! Part: shape lemmas for the builders (shared by the dispatch and
frame-effect claims) -/

theorem build_query_ok_shape (ps : PDict) (d : NativeReq)
    (h : build_query_request ps = .ok d) :
    d.method = "GET" ∧ d.signed = false ∧
    (d.endpoint = "/0/public/Ticker" ∨ d.endpoint = "/0/public/OHLC" ∨
      d.endpoint = "/0/public/Depth") ∧
    lookupKey d.params "nonce" = none := by
  simp only [build_query_request] at h
  repeat' split at h
  all_goals simp_all [endpointFor, ENDPOINTS, lookupKey]
  all_goals (subst h; simp [lookupKey])

theorem build_order_ok_shape (ps : PDict) (d : NativeReq)
    (h : build_order_request ps = .ok d) :
    d.method = "POST" ∧ d.signed = true ∧ d.endpoint = "/0/private/AddOrder" ∧
    lookupKey d.params "nonce" = none := by
  simp only [build_order_request] at h
  repeat' split at h
  all_goals simp_all [endpointFor, ENDPOINTS, lookupKey]
  all_goals (subst h; simp [lookupKey])

theorem build_cancel_ok_shape (ps : PDict) (d : NativeReq)
    (h : build_cancel_request ps = .ok d) :
    d.method = "POST" ∧ d.signed = true ∧ d.endpoint = "/0/private/CancelOrder" ∧
    lookupKey d.params "nonce" = none := by
  simp only [build_cancel_request] at h
  repeat' split at h
  all_goals simp_all [endpointFor, ENDPOINTS, lookupKey]
  all_goals (subst h; simp [lookupKey])

theorem build_status_ok_shape (ps : PDict) (d : NativeReq)
    (h : build_status_request ps = .ok d) :
    d.method = "POST" ∧ d.signed = true ∧ d.endpoint = "/0/private/QueryOrders" ∧
    lookupKey d.params "nonce" = none := by
  simp only [build_status_request] at h
  repeat' split at h
  all_goals simp_all [endpointFor, ENDPOINTS, lookupKey]
  all_goals (subst h; simp [lookupKey])

theorem build_open_orders_ok_shape (ps : PDict) (d : NativeReq)
    (h : build_open_orders_request ps = .ok d) :
    d.method = "POST" ∧ d.signed = true ∧ d.endpoint = "/0/private/OpenOrders" ∧
    lookupKey d.params "nonce" = none := by
  simp [build_open_orders_request, endpointFor, ENDPOINTS, lookupKey] at h
  simp [← h, lookupKey]

theorem build_balance_ok_shape (d : NativeReq)
    (h : build_balance_request = .ok d) :
    d.method = "POST" ∧ d.signed = true ∧ d.endpoint = "/0/private/Balance" ∧
    lookupKey d.params "nonce" = none := by
  simp [build_balance_request, endpointFor, ENDPOINTS, lookupKey] at h
  simp [← h, lookupKey]

/-- Every successful translation matches the specification's route table
and never emits a `nonce` parameter; signed descriptors are POSTs. -/
theorem to_native_ok_shape (action : String) (ps : PDict) (d : NativeReq)
    (h : to_native action ps = .ok d) :
    (∃ m es, spec_route action = some (m, es) ∧ d.method = m ∧ d.endpoint ∈ es) ∧
    lookupKey d.params "nonce" = none ∧ (d.signed = true → d.method = "POST") := by
  unfold to_native at h
  by_cases h1 : action = "ACT.QUERY.DATA"
  · subst h1; simp [ACTION_MAP, lookupKey] at h
    obtain ⟨hm, hs, he, hn⟩ := build_query_ok_shape ps d h
    refine ⟨⟨"GET", ["/0/public/Ticker", "/0/public/OHLC", "/0/public/Depth"],
      by simp [spec_route, lookupKey], hm, ?_⟩, hn,
      fun hsig => by rw [hs] at hsig; cases hsig⟩
    rcases he with he | he | he <;> simp [he]
  by_cases h2 : action = "ACT.QUERY.STATUS"
  · subst h2; simp [ACTION_MAP, lookupKey] at h
    obtain ⟨hm, hs, he, hn⟩ := build_status_ok_shape ps d h
    exact ⟨⟨"POST", ["/0/private/QueryOrders"],
      by simp [spec_route, lookupKey], hm, by simp [he]⟩, hn, fun _ => hm⟩
  by_cases h3 : action = "ACT.TRANSACT.REQUEST"
  · subst h3; simp [ACTION_MAP, lookupKey] at h
    obtain ⟨hm, hs, he, hn⟩ := build_order_ok_shape ps d h
    exact ⟨⟨"POST", ["/0/private/AddOrder"],
      by simp [spec_route, lookupKey], hm, by simp [he]⟩, hn, fun _ => hm⟩
  by_cases h4 : action = "ACT.CANCEL"
  · subst h4; simp [ACTION_MAP, lookupKey] at h
    obtain ⟨hm, hs, he, hn⟩ := build_cancel_ok_shape ps d h
    exact ⟨⟨"POST", ["/0/private/CancelOrder"],
      by simp [spec_route, lookupKey], hm, by simp [he]⟩, hn, fun _ => hm⟩
  by_cases h5 : action = "ACT.QUERY.LIST"
  · subst h5; simp [ACTION_MAP, lookupKey] at h
    obtain ⟨hm, hs, he, hn⟩ := build_open_orders_ok_shape ps d h
    exact ⟨⟨"POST", ["/0/private/OpenOrders"],
      by simp [spec_route, lookupKey], hm, by simp [he]⟩, hn, fun _ => hm⟩
  by_cases h6 : action = "ACT.QUERY.BALANCE"
  · subst h6; simp [ACTION_MAP, lookupKey] at h
    obtain ⟨hm, hs, he, hn⟩ := build_balance_ok_shape d h
    exact ⟨⟨"POST", ["/0/private/Balance"],
      by simp [spec_route, lookupKey], hm, by simp [he]⟩, hn, fun _ => hm⟩
  · have hl : lookupKey ACTION_MAP action = none := by
      simp [ACTION_MAP, lookupKey, Ne.symm h1, Ne.symm h2, Ne.symm h3,
        Ne.symm h4, Ne.symm h5, Ne.symm h6]
    rw [hl] at h
    exact Except.noConfusion h

/-- C4: Every action in the six-entry dispatch table translates (when
translation succeeds) to a descriptor whose HTTP method and endpoint match
the specification's fixed table, and each such action does admit a
successful translation; every action outside the table fails with the
unsupported-action error listing the known action set. -/
theorem dispatch_matches_table (action : String) (ps : PDict) :
    (lookupKey ACTION_MAP action = none →
      to_native action ps = .error (.adapterError (unsupported_msg action))) ∧
    (∀ d, to_native action ps = .ok d →
      ∃ m es, spec_route action = some (m, es) ∧ d.method = m ∧ d.endpoint ∈ es) ∧
    (∀ op, (action, op) ∈ ACTION_MAP → ∃ qs d, to_native action qs = .ok d) := by
  refine ⟨?_, ?_, ?_⟩
  · intro h; simp [to_native, h]
  · intro d hd; exact (to_native_ok_shape action ps d hd).1
  · intro op hop
    simp [ACTION_MAP] at hop
    rcases hop with ⟨ha, _⟩ | ⟨ha, _⟩ | ⟨ha, _⟩ | ⟨ha, _⟩ | ⟨ha, _⟩ | ⟨ha, _⟩ <;> subst ha
    · exact ⟨[], ⟨"GET", "/0/public/Ticker", [], false⟩, rfl⟩
    · exact ⟨[("order_id", .str "OID")],
        ⟨"POST", "/0/private/QueryOrders", [("txid", .str "OID")], true⟩, rfl⟩
    · exact ⟨[("symbol", .str "XBTUSD"), ("side", .str "BUY"), ("quantity", .str "1")],
        ⟨"POST", "/0/private/AddOrder",
          [("pair", .str "XBTUSD"), ("type", .str "buy"),
           ("ordertype", .str "market"), ("volume", .str "1")], true⟩, rfl⟩
    · exact ⟨[("order_id", .str "OID")],
        ⟨"POST", "/0/private/CancelOrder", [("txid", .str "OID")], true⟩, rfl⟩
    · exact ⟨[], ⟨"POST", "/0/private/OpenOrders", [], true⟩, rfl⟩
    · exact ⟨[], ⟨"POST", "/0/private/Balance", [], true⟩, rfl⟩

/-- Witness for C4: an out-of-table action fails with the listing error,
and the balance action's descriptor matches the table. -/
theorem dispatch_matches_table_witness :
    to_native "ACT.EXPLODE" [] = .error (.adapterError (unsupported_msg "ACT.EXPLODE")) ∧
    (∃ m es, spec_route "ACT.QUERY.BALANCE" = some (m, es) ∧
      (NativeReq.mk "POST" "/0/private/Balance" [] true).method = m ∧
      (NativeReq.mk "POST" "/0/private/Balance" [] true).endpoint ∈ es) :=
  ⟨(dispatch_matches_table "ACT.EXPLODE" []).1 rfl,
   (dispatch_matches_table "ACT.QUERY.BALANCE" []).2.1
     ⟨"POST", "/0/private/Balance", [], true⟩ rfl⟩

/-- C5: Order placement requires `symbol`, `side`, `quantity`, failing
with a `MissingParameter` error naming the first absent field in that
order; otherwise the descriptor maps `pair` to the uppercased symbol,
`type` to the lowercased side, `ordertype` to the lowercased order type
(defaulting to `"market"`), `volume` to the stringified quantity; a
`"limit"` order type without `price` fails, and with `price` passes it
through as a string; the descriptor is a signed POST to the add-order
endpoint. -/
theorem order_builder_contract (ps : PDict) :
    (lookupKey ps "symbol" = none →
      build_order_request ps = .error (.adapterError
        "Missing required field \x27symbol\x27 for order placement.")) ∧
    (hasKey ps "symbol" = true → lookupKey ps "side" = none →
      build_order_request ps = .error (.adapterError
        "Missing required field \x27side\x27 for order placement.")) ∧
    (hasKey ps "symbol" = true → hasKey ps "side" = true →
      lookupKey ps "quantity" = none →
      build_order_request ps = .error (.adapterError
        "Missing required field \x27quantity\x27 for order placement.")) ∧
    (∀ sym sd q ot,
      lookupKey ps "symbol" = some (.str sym) →
      lookupKey ps "side" = some (.str sd) →
      lookupKey ps "quantity" = some q →
      pyGetD ps "order_type" (.str "market") = .str ot →
      (lowerAscii ot ≠ "limit" →
        build_order_request ps = .ok ⟨"POST", "/0/private/AddOrder",
          [("pair", .str (upperAscii sym)), ("type", .str (lowerAscii sd)),
           ("ordertype", .str (lowerAscii ot)), ("volume", .str (pyStr q))],
          true⟩) ∧
      (lowerAscii ot = "limit" → lookupKey ps "price" = none →
        build_order_request ps =
          .error (.adapterError "Price required for LIMIT orders.")) ∧
      (∀ pr, lowerAscii ot = "limit" → lookupKey ps "price" = some pr →
        build_order_request ps = .ok ⟨"POST", "/0/private/AddOrder",
          [("pair", .str (upperAscii sym)), ("type", .str (lowerAscii sd)),
           ("ordertype", .str (lowerAscii ot)), ("volume", .str (pyStr q)),
           ("price", .str (pyStr pr))], true⟩)) := by
  refine ⟨?_, ?_, ?_, ?_⟩
  · intro h
    simp [build_order_request, firstMissing, List.find?, hasKey, h]
  · intro hsym h
    obtain ⟨v, hv⟩ := Option.isSome_iff_exists.mp hsym
    simp [build_order_request, firstMissing, List.find?, hasKey, hv, h]
  · intro hsym hsd h
    obtain ⟨v, hv⟩ := Option.isSome_iff_exists.mp hsym
    obtain ⟨v2, hv2⟩ := Option.isSome_iff_exists.mp hsd
    simp [build_order_request, firstMissing, List.find?, hasKey, hv, hv2, h]
  · intro sym sd q ot hsym hsd hq hot
    simp only [pyGetD] at hot
    have hfm : firstMissing ps ["symbol", "side", "quantity"] = none := by
      simp [firstMissing, List.find?, hasKey, hsym, hsd, hq]
    refine ⟨?_, ?_, ?_⟩
    · intro hlim
      simp [build_order_request, hfm, pyGetD, hsym, hsd, hq, hot, pyUpper,
        pyLower, pyStr, endpointFor, ENDPOINTS, lookupKey, hlim]
    · intro hlim hpr
      simp [build_order_request, hfm, pyGetD, hsym, hsd, hq, hot, pyUpper,
        pyLower, pyStr, hlim, hpr]
    · intro pr hlim hpr
      simp [build_order_request, hfm, pyGetD, hsym, hsd, hq, hot, pyUpper,
        pyLower, pyStr, endpointFor, ENDPOINTS, lookupKey, hlim, hpr]

/-- Witness for C5: a concrete limit order with all fields present. -/
theorem order_builder_contract_witness :
    build_order_request [("symbol", .str "ETHUSD"), ("side", .str "BUY"),
        ("quantity", .int 1), ("order_type", .str "LIMIT"), ("price", .int 2000)] =
      .ok ⟨"POST", "/0/private/AddOrder",
        [("pair", .str (upperAscii "ETHUSD")), ("type", .str (lowerAscii "BUY")),
         ("ordertype", .str (lowerAscii "LIMIT")),
         ("volume", .str (pyStr (.int 1))), ("price", .str (pyStr (.int 2000)))],
        true⟩ :=
  ((order_builder_contract [("symbol", .str "ETHUSD"), ("side", .str "BUY"),
      ("quantity", .int 1), ("order_type", .str "LIMIT"), ("price", .int 2000)]).2.2.2
    "ETHUSD" "BUY" (.int 1) "LIMIT" rfl rfl rfl rfl).2.2 (.int 2000) rfl rfl

/-- C6, counterexample: The claim states that a `klines` query *with a
symbol* produces the OHLC request; but the code tests Python truthiness,
so a mapping whose type is `"klines"` and whose symbol is the empty
string — one that does carry a symbol key — fails with the missing-symbol error instead of producing the
OHLC request. -/
theorem klines_empty_symbol_counterexample :
    hasKey [("type", PVal.str "klines"), ("symbol", PVal.str "")] "symbol" = true ∧
    build_query_request [("type", PVal.str "klines"), ("symbol", PVal.str "")] =
      .error (.adapterError "Symbol required for klines query.") :=
  ⟨rfl, rfl⟩

/-- C6, amended: Market-data query: `type` defaults to `"price"`;
`"price"`/`"24h"` build the ticker request, inserting the uppercased
symbol into `pair` only when the symbol is truthy (absent and
empty-string symbols alike are omitted); `"klines"`/`"depth"` fail with
`MissingParameter` when the symbol is absent *or falsy* and otherwise
build the OHLC request (`interval` defaulting to 60) resp. the order-book
request (`limit` defaulting to 20, mapped to `count`); any other type
fails with `InvalidParameters` naming the allowed set. -/
theorem query_builder_contract (ps : PDict) :
    ((pyGetD ps "type" (.str "price") = PVal.str "price" ∨
      pyGetD ps "type" (.str "price") = PVal.str "24h") →
      (truthyV (lookupKey ps "symbol") = false →
        build_query_request ps = .ok ⟨"GET", "/0/public/Ticker", [], false⟩) ∧
      (∀ s, lookupKey ps "symbol" = some (.str s) → s ≠ "" →
        build_query_request ps = .ok ⟨"GET", "/0/public/Ticker",
          [("pair", .str (upperAscii s))], false⟩)) ∧
    (pyGetD ps "type" (.str "price") = PVal.str "klines" →
      (truthyV (lookupKey ps "symbol") = false →
        build_query_request ps =
          .error (.adapterError "Symbol required for klines query.")) ∧
      (∀ s, lookupKey ps "symbol" = some (.str s) → s ≠ "" →
        build_query_request ps = .ok ⟨"GET", "/0/public/OHLC",
          [("pair", .str (upperAscii s)),
           ("interval", pyGetD ps "interval" (.int 60))], false⟩)) ∧
    (pyGetD ps "type" (.str "price") = PVal.str "depth" →
      (truthyV (lookupKey ps "symbol") = false →
        build_query_request ps =
          .error (.adapterError "Symbol required for depth query.")) ∧
      (∀ s, lookupKey ps "symbol" = some (.str s) → s ≠ "" →
        build_query_request ps = .ok ⟨"GET", "/0/public/Depth",
          [("pair", .str (upperAscii s)),
           ("count", pyGetD ps "limit" (.int 20))], false⟩)) ∧
    (pyGetD ps "type" (.str "price") ∉
        ([.str "price", .str "24h", .str "klines", .str "depth"] : List PVal) →
      build_query_request ps = .error (.adapterError
        ("Unknown query type \x27" ++ pyStr (pyGetD ps "type" (.str "price")) ++
          "\x27. Use: price, 24h, klines, depth."))) := by
  refine ⟨?_, ?_, ?_, ?_⟩
  · intro hqt
    constructor
    · intro hf
      rcases hqt with hqt | hqt <;>
        simp [build_query_request, hqt, hf, endpointFor, ENDPOINTS, lookupKey]
    · intro s hsym hs
      have hb : (s != "") = true := by simp [hs]
      rcases hqt with hqt | hqt <;>
        simp [build_query_request, hqt, hsym, truthyV, hb, pyUpper,
          endpointFor, ENDPOINTS, lookupKey]
  · intro hqt
    constructor
    · intro hf
      have h1 : ¬(pyGetD ps "type" (.str "price") = PVal.str "price" ∨
          pyGetD ps "type" (.str "price") = PVal.str "24h") := by simp [hqt]
      simp [build_query_request, hqt, h1, hf]
    · intro s hsym hs
      have hb : (s != "") = true := by simp [hs]
      have h1 : ¬(pyGetD ps "type" (.str "price") = PVal.str "price" ∨
          pyGetD ps "type" (.str "price") = PVal.str "24h") := by simp [hqt]
      simp [build_query_request, hqt, h1, hsym, truthyV, hb, pyUpper,
        endpointFor, ENDPOINTS, lookupKey]
  · intro hqt
    constructor
    · intro hf
      have h1 : ¬(pyGetD ps "type" (.str "price") = PVal.str "price" ∨
          pyGetD ps "type" (.str "price") = PVal.str "24h") := by simp [hqt]
      have h2 : ¬(pyGetD ps "type" (.str "price") = PVal.str "klines") := by
        simp [hqt]
      simp [build_query_request, hqt, h1, h2, hf]
    · intro s hsym hs
      have hb : (s != "") = true := by simp [hs]
      have h1 : ¬(pyGetD ps "type" (.str "price") = PVal.str "price" ∨
          pyGetD ps "type" (.str "price") = PVal.str "24h") := by simp [hqt]
      have h2 : ¬(pyGetD ps "type" (.str "price") = PVal.str "klines") := by
        simp [hqt]
      simp [build_query_request, hqt, h1, h2, hsym, truthyV, hb, pyUpper,
        endpointFor, ENDPOINTS, lookupKey]
  · intro hqt
    simp only [List.mem_cons, List.mem_singleton, not_or] at hqt
    obtain ⟨h1, h2, h3, h4⟩ := hqt
    simp [build_query_request, h1, h2, h3, h4]

/-- Witness for C6 (amended): a concrete klines query with a non-empty
symbol builds the OHLC request. -/
theorem query_builder_contract_witness :
    build_query_request [("symbol", .str "xbtusd"), ("type", .str "klines")] =
      .ok ⟨"GET", "/0/public/OHLC",
        [("pair", .str (upperAscii "xbtusd")),
         ("interval", pyGetD [("symbol", .str "xbtusd"), ("type", .str "klines")]
           "interval" (.int 60))], false⟩ :=
  ((query_builder_contract [("symbol", .str "xbtusd"), ("type", .str "klines")]).2.1
    rfl).2 "xbtusd" rfl (by decide)

/-- The signed-POST branch of `call_build` in one equation (shared by the
transport and frame-effect claims). -/
theorem call_build_signed_eq (now : Nat) (req : NativeReq) (kk ss : String)
    (sk : List Nat) (hm : req.method = "POST") (hs : req.signed = true)
    (hk : kk ≠ "") (hss : ss ≠ "") (hdec : b64decode ss = some sk) :
    call_build (some kk) (some ss) now req =
      .ok (⟨"POST", BASE_URL ++ req.endpoint, [],
            setKey req.params "nonce" (.str (toString now)),
            [("API-Key", kk), ("API-Sign", b64encode (hmacSha512 sk
              (utf8Bytes req.endpoint ++ sha256 (utf8Bytes (toString now ++
                urlencode (setKey req.params "nonce" (.str (toString now))))))))]⟩,
           { req with params := setKey req.params "nonce" (.str (toString now)) }) := by
  simp [call_build, hm, hs, truthyS, hk, hss, sign_request, hdec]

/-- C7: For every signed POST descriptor: with the API key or secret
absent (falsy), the call fails with the missing-credentials error — for
every clock reading, so before any nonce is derived from the clock and
without any request being built; with both present, the nonce (the clock
reading in milliseconds as a decimal string) is inserted into the
parameter body, the signature headers are computed over that
nonce-including body, and the parameters are sent as the POST body
together with the two signature headers. -/
theorem signed_post_contract (now : Nat) (req : NativeReq)
    (hm : req.method = "POST") (hs : req.signed = true) :
    (∀ k s, (truthyS k && truthyS s) = false →
      call_build k s now req =
        .error (.adapterError "API key and secret required for signed requests.")) ∧
    (∀ kk ss sk, kk ≠ "" → ss ≠ "" → b64decode ss = some sk →
      call_build (some kk) (some ss) now req =
        .ok (⟨"POST", BASE_URL ++ req.endpoint, [],
              setKey req.params "nonce" (.str (toString now)),
              [("API-Key", kk), ("API-Sign", b64encode (hmacSha512 sk
                (utf8Bytes req.endpoint ++ sha256 (utf8Bytes (toString now ++
                  urlencode (setKey req.params "nonce" (.str (toString now))))))))]⟩,
             { req with params := setKey req.params "nonce" (.str (toString now)) })) := by
  constructor
  · intro k s h; simp [call_build, hm, hs, h]
  · intro kk ss sk hk hss hdec
    exact call_build_signed_eq now req kk ss sk hm hs hk hss hdec

/-- Witness for C7: missing credentials fail, and concrete credentials
produce the signed call, on the balance descriptor. -/
theorem signed_post_contract_witness :
    call_build none none 1700000000000 ⟨"POST", "/0/private/Balance", [], true⟩ =
      .error (.adapterError "API key and secret required for signed requests.") ∧
    ∃ out, call_build (some "test-key") (some "dGVzdC1zZWNyZXQ=") 1700000000000
      ⟨"POST", "/0/private/Balance", [], true⟩ = .ok out :=
  ⟨(signed_post_contract 1700000000000 ⟨"POST", "/0/private/Balance", [], true⟩
      rfl rfl).1 none none rfl,
   ⟨_, (signed_post_contract 1700000000000 ⟨"POST", "/0/private/Balance", [], true⟩
      rfl rfl).2 "test-key" "dGVzdC1zZWNyZXQ="
      [116, 101, 115, 116, 45, 115, 101, 99, 114, 101, 116]
      (by decide) (by decide) rfl⟩⟩

/-- C10: For every signed POST descriptor produced by translation, the
call step updates the descriptor's own parameter mapping by inserting the
`nonce` key (Python mutates the caller's dict in place), so after the
call the descriptor differs from the one translation produced, while its
method, endpoint and signed flag are unchanged and the sent body is
exactly the updated mapping. -/
theorem call_mutates_descriptor (action : String) (ps : PDict) (d : NativeReq)
    (kk ss : String) (sk : List Nat) (now : Nat)
    (ht : to_native action ps = .ok d) (hs : d.signed = true)
    (hk : kk ≠ "") (hss : ss ≠ "") (hdec : b64decode ss = some sk) :
    ∃ call d2, call_build (some kk) (some ss) now d = .ok (call, d2) ∧
      call.body = d2.params ∧
      d2.params = setKey d.params "nonce" (.str (toString now)) ∧
      lookupKey d2.params "nonce" = some (.str (toString now)) ∧
      d2.method = d.method ∧ d2.endpoint = d.endpoint ∧ d2.signed = d.signed ∧
      d2 ≠ d := by
  obtain ⟨_, hn, hmp⟩ := to_native_ok_shape action ps d ht
  have hm := hmp hs
  refine ⟨_, _, call_build_signed_eq now d kk ss sk hm hs hk hss hdec, rfl, rfl,
    lookupKey_setKey _ _ _, rfl, rfl, rfl, ?_⟩
  intro he
  have hlen := congrArg (fun r => r.params.length) he
  simp [length_setKey_of_lookup_none d.params "nonce" _ hn] at hlen

/-- Witness for C10: the balance descriptor, translated and then sent with
concrete credentials and clock. -/
theorem call_mutates_descriptor_witness :
    ∃ call d2, call_build (some "test-key") (some "dGVzdC1zZWNyZXQ=") 1700000000000
        (NativeReq.mk "POST" "/0/private/Balance" [] true) = .ok (call, d2) ∧
      call.body = d2.params ∧
      d2.params = setKey ([] : PDict) "nonce" (.str (toString 1700000000000)) ∧
      lookupKey d2.params "nonce" = some (.str (toString 1700000000000)) ∧
      d2.method = "POST" ∧ d2.endpoint = "/0/private/Balance" ∧ d2.signed = true ∧
      d2 ≠ NativeReq.mk "POST" "/0/private/Balance" [] true :=
  call_mutates_descriptor "ACT.QUERY.BALANCE" [] ⟨"POST", "/0/private/Balance", [], true⟩
    "test-key" "dGVzdC1zZWNyZXQ=" [116, 101, 115, 116, 45, 115, 101, 99, 114, 101, 116]
    1700000000000 rfl rfl (by decide) (by decide) rfl

end PulseKraken
